import Mathlib

/-!
Verification of the `idle_time` library (src/idle_time/__init__.py).

The development shallowly embeds the parts of the source that the claims
are about:

* the selection loop of `IdleMonitor.get_monitor` (lines 31-40), modelled
  as a recursion over the ordered registry together with an explicit trace
  of the construction attempts and idle-time probe queries it performs;
* `IdleMonitor.is_idle` (lines 48-52);
* `GnomeWaylandIdleMonitor.__init__` (lines 81-94) and
  `GnomeWaylandIdleMonitor.get_idle_time` (lines 96-108), with the session
  bus as an explicit external collaborator;
* `WindowsIdleMonitor.get_idle_time` (lines 69-70) and
  `X11IdleMonitor.get_idle_time` (lines 155-157);
* the resource accounting of discarded candidates during selection;
* the subclass auto-registration of `IdleMonitor.__init_subclass__`
  (lines 14-22).
-/

set_option maxHeartbeats 1000000

/-- Observable behaviour of one registry candidate during the selector's
two-phase probe in `IdleMonitor.get_monitor`: whether `monitor_class(**kwargs)`
returns normally, and whether the probe call `m.get_idle_time()` returns
normally.  The monitor classes themselves are opaque to the selector, so this
is all the selector can depend on. -/
structure Candidate where
  constructOk : Bool
  probeOk : Bool
deriving DecidableEq

/-- An observable action of the selection loop: a construction attempt of the
candidate at position `i` of the registry, or an idle-time probe query against
the instance produced by candidate `i`. -/
inductive Event where
  | construct (i : Nat)
  | query (i : Nat)
deriving DecidableEq

/-- Registry position an event refers to. -/
def eventIdx : Event → Nat
  | .construct i => i
  | .query i => i

/-- Number of occurrences of an event in a trace. -/
def countE (e : Event) : List Event → Nat
  | [] => 0
  | e' :: rest => (if e' = e then 1 else 0) + countE e rest

/-- The error kind of the `RuntimeError("Could not find a working monitor.")`
raised at line 40 when the loop exhausts the registry. -/
inductive SelectError where
  | NoMonitorAvailable
deriving DecidableEq

/-- Outcome of `IdleMonitor.get_monitor`: either the instance produced by the
candidate at a registry position, or the terminal error. -/
inductive SelectOutcome where
  | selected (index : Nat)
  | failed (e : SelectError)
deriving DecidableEq

/-- The `for monitor_class in cls.subclasses` loop of
`IdleMonitor.get_monitor` (lines 31-39), carrying the registry position `i` of
the head candidate.  For each candidate the loop attempts construction
(`monitor_class(**kwargs)`, line 33); on success it immediately performs one
probe query (`m.get_idle_time()`, line 35) and, if that also returns, the
instance is returned (line 37); any exception in either step is caught at
line 38 and the loop advances. -/
def runSelect : Nat → List Candidate → Option Nat × List Event
  | _, [] => (none, [])
  | i, c :: rest =>
    if c.constructOk then
      if c.probeOk then
        (some i, [Event.construct i, Event.query i])
      else
        ((runSelect (i + 1) rest).1,
          Event.construct i :: Event.query i :: (runSelect (i + 1) rest).2)
    else
      ((runSelect (i + 1) rest).1, Event.construct i :: (runSelect (i + 1) rest).2)

/-- `IdleMonitor.get_monitor` (lines 24-40): run the selection loop over the
registry; if no candidate survives both phases, raise
`RuntimeError("Could not find a working monitor.")` (line 40). -/
def get_monitor (cs : List Candidate) : SelectOutcome × List Event :=
  match runSelect 0 cs with
  | (some i, tr) => (SelectOutcome.selected i, tr)
  | (none, tr) => (SelectOutcome.failed SelectError.NoMonitorAvailable, tr)

/-- `noWinBefore cs j` holds when no candidate at a position strictly before
`j` passes both phases, i.e. the loop reaches position `j`. -/
def noWinBefore : List Candidate → Nat → Bool
  | _, 0 => true
  | [], _ + 1 => true
  | c :: rest, j + 1 => !(c.constructOk && c.probeOk) && noWinBefore rest j

/-- Position of the first candidate that passes both phases, if any. -/
def firstWinIdx : List Candidate → Option Nat
  | [] => none
  | c :: rest =>
    if c.constructOk && c.probeOk then some 0 else (firstWinIdx rest).map (· + 1)

/-- `needle` occurs at the head of `hay` (character lists). -/
def startsWithChars : List Char → List Char → Bool
  | [], _ => true
  | _ :: _, [] => false
  | n :: ns, h :: hs => (n = h) && startsWithChars ns hs

/-- `needle` occurs somewhere in `hay`: Python's `needle in hay` on strings. -/
def hasSubstringChars (needle : List Char) : List Char → Bool
  | [] => needle.isEmpty
  | h :: hs => startsWithChars needle (h :: hs) || hasSubstringChars needle hs

/-- Line 85 of the source: `"GNOME" in os.environ.get("XDG_CURRENT_DESKTOP", "")`,
with `xdg` the value of the environment variable (`none` when unset). -/
def gnomeCheck (xdg : Option String) : Bool :=
  hasSubstringChars "GNOME".toList (xdg.getD "").toList

/-- Observable outcome of `GnomeWaylandIdleMonitor.__init__` (lines 81-94):
whether an instance was produced (`ok`), whether `connect_and_authenticate`
was reached (`connectAttempted`), whether it returned an open session-bus
connection (`connectionOpen`), and whether the `GetIdletime` method-call
message was prepared (`messagePrepared`). -/
structure GnomeInitResult where
  ok : Bool
  connectAttempted : Bool
  connectionOpen : Bool
  messagePrepared : Bool
deriving DecidableEq

/-- `GnomeWaylandIdleMonitor.__init__` (lines 81-94).  The desktop check at
lines 85-86 runs first and raises `RuntimeError("Gnome is not running.")`
before anything touches the bus; only then is `connect_and_authenticate`
called (line 93, which itself may raise when no session bus is reachable,
modelled by `busAvailable`) and the method-call message prepared (line 94). -/
def gnome_init (xdg : Option String) (busAvailable : Bool) : GnomeInitResult :=
  if gnomeCheck xdg = false then
    GnomeInitResult.mk false false false false
  else if busAvailable = false then
    GnomeInitResult.mk false true false false
  else
    GnomeInitResult.mk true true true true

/-- The bus error name tested at line 106. -/
def serviceUnknownName : String := "org.freedesktop.DBus.Error.ServiceUnknown"

/-- Response of the session bus to the `GetIdletime` call at line 100, as the
external collaborator: a successful reply carrying a millisecond count, a
`DBusErrorResponse` carrying an error name, or any other exception
(e.g. a socket failure), which is not a `DBusErrorResponse`. -/
inductive BusReply where
  | success (ms : Nat)
  | busError (name : String)
  | otherFailure
deriving DecidableEq

/-- Error raised out of `GnomeWaylandIdleMonitor.get_idle_time`:
the descriptive `RuntimeError` of line 107, a re-raised `DBusErrorResponse`
(line 108), or a propagated non-bus exception. -/
inductive QueryError where
  | serviceNotAvailable (msg : String)
  | busError (name : String)
  | otherError
deriving DecidableEq

/-- Result value of a `get_idle_time` call: seconds, or a raised error. -/
inductive QueryOutcome where
  | ok (seconds : ℚ)
  | err (e : QueryError)
deriving DecidableEq

/-- Whether a query outcome is a normal return. -/
def QueryOutcome.isOk : QueryOutcome → Bool
  | .ok _ => true
  | .err _ => false

/-- Observable outcome of `GnomeWaylandIdleMonitor.get_idle_time`:
the returned value or raised error, and whether `self.connection.close()`
(line 105) ran before the call finished. -/
structure GnomeQueryResult where
  result : QueryOutcome
  connClosed : Bool
deriving DecidableEq

/-- `GnomeWaylandIdleMonitor.get_idle_time` (lines 96-108).  On a successful
reply it returns `reply[0] / 1000` (lines 100-102).  On a `DBusErrorResponse`
it first closes the connection (line 105) and then raises: the descriptive
`RuntimeError` when the error name is `org.freedesktop.DBus.Error.ServiceUnknown`
(lines 106-107), otherwise the original bus error is re-raised unchanged
(line 108).  Any other exception propagates without the `except` clause
running, so the connection is not closed. -/
def gnome_get_idle_time (reply : BusReply) : GnomeQueryResult :=
  match reply with
  | .success ms => GnomeQueryResult.mk (.ok ((ms : ℚ) / 1000)) false
  | .busError name =>
    if name = serviceUnknownName then
      GnomeQueryResult.mk
        (.err (.serviceNotAvailable "Gnome Mutter is not available, is gnome running?"))
        true
    else
      GnomeQueryResult.mk (.err (.busError name)) true
  | .otherFailure => GnomeQueryResult.mk (.err .otherError) false

/-- `WindowsIdleMonitor.get_idle_time` (lines 69-70):
`(win32api.GetTickCount() - win32api.GetLastInputInfo()) / 1000`.  Both API
calls return non-negative Python ints (DWORD tick values) and the subtraction
is ordinary integer subtraction. -/
def windows_get_idle_time (tickCount lastInputTick : Nat) : ℚ :=
  ((tickCount : ℚ) - (lastInputTick : ℚ)) / 1000

/-- `X11IdleMonitor.get_idle_time` (lines 155-157): the `idle` field of the
query-info buffer is a `c_ulong` millisecond counter, divided by 1000. -/
def x11_get_idle_time (idleMs : Nat) : ℚ :=
  (idleMs : ℚ) / 1000

/-- `IdleMonitor.is_idle` (lines 48-52):
`self.get_idle_time() > self.idle_threshold`, applied to the value returned
by `get_idle_time` and the stored threshold. -/
def is_idle (get_idle_time_value idle_threshold : ℚ) : Bool :=
  decide (get_idle_time_value > idle_threshold)

/-- Resource bookkeeping of one candidate's probe, read off from the backend
code: the resources its construction attempt allocated (in allocation order),
whether construction returned an instance, the resources the candidate's own
code released during the probe query, and whether the probe returned. -/
structure ProbeStep where
  allocated : List String
  constructOk : Bool
  released : List String
  probeOk : Bool
deriving DecidableEq

/-- Resources of `alloc` that were not released. -/
def unreleased (alloc released : List String) : List String :=
  alloc.filter fun r => !(released.contains r)

/-- The selection loop of `get_monitor` with resource accounting.  The
`except` clause (lines 38-39) only logs: the selector itself releases
nothing, so a discarded candidate leaves allocated exactly what its own code
did not release.  Returns the winning position (if any) and the resources
left allocated by discarded candidates. -/
def selectRes : Nat → List ProbeStep → Option Nat × List String
  | _, [] => (none, [])
  | i, s :: rest =>
    if s.constructOk && s.probeOk then
      (some i, [])
    else
      ((selectRes (i + 1) rest).1,
        unreleased s.allocated s.released ++ (selectRes (i + 1) rest).2)

/-- Resource behaviour of a `GnomeWaylandIdleMonitor` candidate, derived from
`gnome_init` and `gnome_get_idle_time`: construction allocates the session-bus
connection of line 93 exactly when `connect_and_authenticate` returns; the
probe releases it exactly when line 105 ran. -/
def gnomeStep (xdg : Option String) (busAvailable : Bool) (reply : BusReply) : ProbeStep :=
  if (gnome_init xdg busAvailable).ok then
    ProbeStep.mk ["session-bus-connection"] true
      (if (gnome_get_idle_time reply).connClosed then ["session-bus-connection"] else [])
      (gnome_get_idle_time reply).result.isOk
  else
    ProbeStep.mk
      (if (gnome_init xdg busAvailable).connectionOpen then ["session-bus-connection"] else [])
      false [] false

/-- Resource behaviour of an `X11IdleMonitor` candidate
(`X11IdleMonitor.__init__`, lines 120-153): `_load_lib("X11")` raises
`OSError` when the library is absent (lines 159-163) before anything is
allocated; otherwise `XOpenDisplay` (line 140) opens a display connection
(when it yields a handle, `displayOk`); then `_load_lib("Xss")` (line 143)
raises `OSError` when that library is absent — the class has no cleanup code,
so the display stays open; otherwise `XScreenSaverAllocInfo` (line 153)
allocates the query-result buffer and construction succeeds.  The probe query
(lines 155-157) performs a plain call and returns. -/
def x11Step (x11Present displayOk xssPresent : Bool) : ProbeStep :=
  if x11Present = false then
    ProbeStep.mk [] false [] false
  else if xssPresent = false then
    ProbeStep.mk (if displayOk then ["display-connection"] else []) false [] false
  else
    ProbeStep.mk
      ((if displayOk then ["display-connection"] else []) ++ ["xss-info-buffer"])
      true [] true

/-- The classes defined by the module, in definition order. -/
inductive MonitorClass where
  | idleMonitorBase
  | windowsIdleMonitor
  | gnomeWaylandIdleMonitor
  | x11IdleMonitor
deriving DecidableEq

/-- Whether a class is a (proper) subclass of `IdleMonitor`; every subclass in
the module is concrete (each defines or inherits working methods). -/
def isSubclassOfIdleMonitor : MonitorClass → Bool
  | .idleMonitorBase => false
  | _ => true

/-- The class statements executed when the module is imported, in source
order: `IdleMonitor` (line 14), `WindowsIdleMonitor` (line 61, only when
`import win32api` succeeds, lines 55-59), `GnomeWaylandIdleMonitor`
(line 73), `X11IdleMonitor` (line 111). -/
def moduleClassDefs (win32Available : Bool) : List MonitorClass :=
  [MonitorClass.idleMonitorBase]
    ++ (if win32Available then [MonitorClass.windowsIdleMonitor] else [])
    ++ [MonitorClass.gnomeWaylandIdleMonitor, MonitorClass.x11IdleMonitor]

/-- `IdleMonitor.__init_subclass__` (lines 20-22): executing a class
statement appends the new class to `IdleMonitor.subclasses` exactly when it
is a subclass of `IdleMonitor`; defining the base itself appends nothing. -/
def registerSubclasses : List MonitorClass → List MonitorClass
  | [] => []
  | c :: rest =>
    (if isSubclassOfIdleMonitor c then [c] else []) ++ registerSubclasses rest

/-- The registry `IdleMonitor.subclasses` after the module is imported. -/
def subclasses (win32Available : Bool) : List MonitorClass :=
  registerSubclasses (moduleClassDefs win32Available)

example : get_monitor [⟨false, false⟩, ⟨true, false⟩, ⟨true, true⟩]
    = (SelectOutcome.selected 2,
        [Event.construct 0, Event.construct 1, Event.query 1,
          Event.construct 2, Event.query 2]) := by decide

example : get_monitor [] = (SelectOutcome.failed SelectError.NoMonitorAvailable, []) := by
  decide

example : noWinBefore [⟨false, false⟩, ⟨true, true⟩] 2 = false := by decide

example : gnomeCheck (some "GNOME") = true := by decide

example : gnomeCheck (some "ubuntu:GNOME") = true := by decide

example : gnomeCheck (some "KDE") = false := by decide

example : gnomeCheck none = false := by decide

example : (selectRes 0 [x11Step true true false]).2 = ["display-connection"] := by decide

example : (selectRes 0 [gnomeStep (some "GNOME") true (BusReply.busError "x")]).2 = [] := by
  decide

theorem countE_eq_zero_of_not_mem (e : Event) (l : List Event) (h : e ∉ l) :
    countE e l = 0 := by
  induction l with
  | nil => rfl
  | cons a t ih =>
    simp only [List.mem_cons, not_or] at h
    have hne : a ≠ e := fun hh => h.1 hh.symm
    simp [countE, ih h.2, hne]

theorem runSelect_cons_win (i : Nat) (c : Candidate) (rest : List Candidate)
    (hc : c.constructOk = true) (hp : c.probeOk = true) :
    runSelect i (c :: rest) = (some i, [Event.construct i, Event.query i]) := by
  simp [runSelect, hc, hp]

theorem runSelect_cons_probe_fail (i : Nat) (c : Candidate) (rest : List Candidate)
    (hc : c.constructOk = true) (hp : c.probeOk = false) :
    runSelect i (c :: rest)
      = ((runSelect (i + 1) rest).1,
          Event.construct i :: Event.query i :: (runSelect (i + 1) rest).2) := by
  simp [runSelect, hc, hp]

theorem runSelect_cons_construct_fail (i : Nat) (c : Candidate) (rest : List Candidate)
    (hc : c.constructOk = false) :
    runSelect i (c :: rest)
      = ((runSelect (i + 1) rest).1, Event.construct i :: (runSelect (i + 1) rest).2) := by
  simp [runSelect, hc]

theorem runSelect_idx_ge (cs : List Candidate) :
    ∀ (i : Nat) (e : Event), e ∈ (runSelect i cs).2 → i ≤ eventIdx e := by
  induction cs with
  | nil => intro i e h; simp [runSelect] at h
  | cons c rest ih =>
    intro i e h
    cases hc : c.constructOk with
    | true =>
      cases hp : c.probeOk with
      | true =>
        rw [runSelect_cons_win i c rest hc hp] at h
        rcases List.mem_cons.mp h with rfl | h2
        · simp [eventIdx]
        · rcases List.mem_cons.mp h2 with rfl | h3
          · simp [eventIdx]
          · simp at h3
      | false =>
        rw [runSelect_cons_probe_fail i c rest hc hp] at h
        rcases List.mem_cons.mp h with rfl | h2
        · simp [eventIdx]
        · rcases List.mem_cons.mp h2 with rfl | h3
          · simp [eventIdx]
          · exact le_trans (Nat.le_succ i) (ih (i + 1) e h3)
    | false =>
      rw [runSelect_cons_construct_fail i c rest hc] at h
      rcases List.mem_cons.mp h with rfl | h2
      · simp [eventIdx]
      · exact le_trans (Nat.le_succ i) (ih (i + 1) e h2)

theorem construct_notin_tail (rest : List Candidate) (i : Nat) :
    Event.construct i ∉ (runSelect (i + 1) rest).2 := fun hmem => by
  have := runSelect_idx_ge rest (i + 1) _ hmem
  simp [eventIdx] at this

theorem query_notin_tail (rest : List Candidate) (i : Nat) :
    Event.query i ∉ (runSelect (i + 1) rest).2 := fun hmem => by
  have := runSelect_idx_ge rest (i + 1) _ hmem
  simp [eventIdx] at this

theorem countE_construct_runSelect (cs : List Candidate) :
    ∀ (i k : Nat),
      countE (Event.construct (i + k)) (runSelect i cs).2
        = if k < cs.length ∧ noWinBefore cs k = true then 1 else 0 := by
  induction cs with
  | nil => intro i k; simp [runSelect, countE]
  | cons c rest ih =>
    intro i k
    cases hc : c.constructOk with
    | true =>
      cases hp : c.probeOk with
      | true =>
        rw [runSelect_cons_win i c rest hc hp]
        cases k with
        | zero => simp [countE, noWinBefore]
        | succ k' =>
          have hne : i ≠ i + (k' + 1) := by omega
          simp [countE, noWinBefore, hc, hp, hne]
      | false =>
        rw [runSelect_cons_probe_fail i c rest hc hp]
        cases k with
        | zero =>
          simp [countE, noWinBefore,
            countE_eq_zero_of_not_mem _ _ (construct_notin_tail rest i)]
        | succ k' =>
          have hne : i ≠ i + (k' + 1) := by omega
          have htail := ih (i + 1) k'
          have harith : (i + 1) + k' = i + (k' + 1) := by omega
          rw [harith] at htail
          simp only [countE, htail]
          have h1 : ¬(Event.construct i = Event.construct (i + (k' + 1))) := by
            simp [hne]
          have h2 : ¬(Event.query i = Event.construct (i + (k' + 1))) := by simp
          rw [if_neg h1, if_neg h2]
          simp [noWinBefore, hc, hp, Nat.succ_lt_succ_iff]
    | false =>
      rw [runSelect_cons_construct_fail i c rest hc]
      cases k with
      | zero =>
        simp [countE, noWinBefore,
          countE_eq_zero_of_not_mem _ _ (construct_notin_tail rest i)]
      | succ k' =>
        have hne : i ≠ i + (k' + 1) := by omega
        have htail := ih (i + 1) k'
        have harith : (i + 1) + k' = i + (k' + 1) := by omega
        rw [harith] at htail
        simp only [countE, htail]
        have h1 : ¬(Event.construct i = Event.construct (i + (k' + 1))) := by
          simp [hne]
        rw [if_neg h1]
        simp [noWinBefore, hc, Nat.succ_lt_succ_iff]

theorem countE_query_runSelect (cs : List Candidate) :
    ∀ (i k : Nat) (c : Candidate), cs[k]? = some c →
      countE (Event.query (i + k)) (runSelect i cs).2
        = if noWinBefore cs k = true ∧ c.constructOk = true then 1 else 0 := by
  induction cs with
  | nil => intro i k c h; simp at h
  | cons c0 rest ih =>
    intro i k c hk
    cases hc : c0.constructOk with
    | true =>
      cases hp : c0.probeOk with
      | true =>
        rw [runSelect_cons_win i c0 rest hc hp]
        cases k with
        | zero =>
          simp only [List.getElem?_cons_zero, Option.some.injEq] at hk
          subst hk
          simp [countE, noWinBefore, hc]
        | succ k' =>
          have hne : i ≠ i + (k' + 1) := by omega
          simp [countE, noWinBefore, hc, hp, hne]
      | false =>
        rw [runSelect_cons_probe_fail i c0 rest hc hp]
        cases k with
        | zero =>
          simp only [List.getElem?_cons_zero, Option.some.injEq] at hk
          subst hk
          simp [countE, noWinBefore, hc,
            countE_eq_zero_of_not_mem _ _ (query_notin_tail rest i)]
        | succ k' =>
          simp only [List.getElem?_cons_succ] at hk
          have hne : i ≠ i + (k' + 1) := by omega
          have htail := ih (i + 1) k' c hk
          have harith : (i + 1) + k' = i + (k' + 1) := by omega
          rw [harith] at htail
          simp only [countE, htail]
          have h1 : ¬(Event.construct i = Event.query (i + (k' + 1))) := by simp
          have h2 : ¬(Event.query i = Event.query (i + (k' + 1))) := by simp [hne]
          rw [if_neg h1, if_neg h2]
          simp [noWinBefore, hc, hp]
    | false =>
      rw [runSelect_cons_construct_fail i c0 rest hc]
      cases k with
      | zero =>
        simp only [List.getElem?_cons_zero, Option.some.injEq] at hk
        subst hk
        simp [countE, noWinBefore, hc,
          countE_eq_zero_of_not_mem _ _ (query_notin_tail rest i)]
      | succ k' =>
        simp only [List.getElem?_cons_succ] at hk
        have htail := ih (i + 1) k' c hk
        have harith : (i + 1) + k' = i + (k' + 1) := by omega
        rw [harith] at htail
        simp only [countE, htail]
        have h1 : ¬(Event.construct i = Event.query (i + (k' + 1))) := by simp
        rw [if_neg h1]
        simp [noWinBefore, hc]


theorem runSelect_fst (cs : List Candidate) :
    ∀ (i : Nat), (runSelect i cs).1 = (firstWinIdx cs).map (fun j => i + j) := by
  induction cs with
  | nil => intro i; simp [runSelect, firstWinIdx]
  | cons c rest ih =>
    intro i
    cases hc : c.constructOk with
    | true =>
      cases hp : c.probeOk with
      | true =>
        rw [runSelect_cons_win i c rest hc hp]
        simp [firstWinIdx, hc, hp]
      | false =>
        rw [runSelect_cons_probe_fail i c rest hc hp]
        simp only [firstWinIdx, hc, hp]
        rw [ih (i + 1)]
        cases firstWinIdx rest with
        | none => simp
        | some j => simp; omega
    | false =>
      rw [runSelect_cons_construct_fail i c rest hc]
      simp only [firstWinIdx, hc]
      rw [ih (i + 1)]
      cases firstWinIdx rest with
      | none => simp
      | some j => simp; omega

theorem firstWinIdx_eq_some_of (cs : List Candidate) :
    ∀ (j : Nat) (c : Candidate), cs[j]? = some c →
      c.constructOk = true → c.probeOk = true → noWinBefore cs j = true →
      firstWinIdx cs = some j := by
  induction cs with
  | nil => intro j c h; simp at h
  | cons c0 rest ih =>
    intro j c hj hc hp hnw
    cases j with
    | zero =>
      simp only [List.getElem?_cons_zero, Option.some.injEq] at hj
      subst hj
      simp [firstWinIdx, hc, hp]
    | succ j' =>
      simp only [List.getElem?_cons_succ] at hj
      simp only [noWinBefore, Bool.and_eq_true, Bool.not_eq_true'] at hnw
      simp [firstWinIdx, hnw.1, ih j' c hj hc hp hnw.2]

theorem firstWinIdx_eq_none_of (cs : List Candidate)
    (h : (cs.all fun c => !(c.constructOk && c.probeOk)) = true) :
    firstWinIdx cs = none := by
  induction cs with
  | nil => simp [firstWinIdx]
  | cons c rest ih =>
    simp only [List.all_cons, Bool.and_eq_true, Bool.not_eq_true'] at h
    simp [firstWinIdx, h.1, ih h.2]

theorem noWinBefore_of_allFail (cs : List Candidate)
    (h : (cs.all fun c => !(c.constructOk && c.probeOk)) = true) :
    ∀ k, noWinBefore cs k = true := by
  induction cs with
  | nil => intro k; cases k <;> simp [noWinBefore]
  | cons c rest ih =>
    intro k
    cases k with
    | zero => simp [noWinBefore]
    | succ k' =>
      simp only [List.all_cons, Bool.and_eq_true] at h
      simp [noWinBefore, h.1, ih h.2 k']

theorem noWinBefore_mono (cs : List Candidate) :
    ∀ (j k : Nat), k ≤ j → noWinBefore cs j = true → noWinBefore cs k = true := by
  induction cs with
  | nil => intro j k _ _; cases k <;> simp [noWinBefore]
  | cons c rest ih =>
    intro j k hkj hj
    cases k with
    | zero => simp [noWinBefore]
    | succ k' =>
      cases j with
      | zero => omega
      | succ j' =>
        simp only [noWinBefore, Bool.and_eq_true] at hj ⊢
        exact ⟨hj.1, ih j' k' (by omega) hj.2⟩

theorem noWinBefore_false_after_win (cs : List Candidate) :
    ∀ (j : Nat) (c : Candidate) (k : Nat), cs[j]? = some c →
      c.constructOk = true → c.probeOk = true → j < k →
      noWinBefore cs k = false := by
  induction cs with
  | nil => intro j c k h; simp at h
  | cons c0 rest ih =>
    intro j c k hj hc hp hjk
    cases j with
    | zero =>
      simp only [List.getElem?_cons_zero, Option.some.injEq] at hj
      subst hj
      cases k with
      | zero => omega
      | succ k' => simp [noWinBefore, hc, hp]
    | succ j' =>
      simp only [List.getElem?_cons_succ] at hj
      cases k with
      | zero => omega
      | succ k' =>
        simp [noWinBefore, ih j' c k' hj hc hp (by omega)]

theorem noWinBefore_extend (cs : List Candidate) :
    ∀ (k : Nat) (c : Candidate), cs[k]? = some c →
      noWinBefore cs k = true → (c.constructOk && c.probeOk) = false →
      noWinBefore cs (k + 1) = true := by
  induction cs with
  | nil => intro k c h; simp at h
  | cons c0 rest ih =>
    intro k c hk hnw hfail
    cases k with
    | zero =>
      simp only [List.getElem?_cons_zero, Option.some.injEq] at hk
      subst hk
      simp [noWinBefore, hfail]
    | succ k' =>
      simp only [List.getElem?_cons_succ] at hk
      simp only [noWinBefore, Bool.and_eq_true] at hnw ⊢
      exact ⟨hnw.1, ih k' c hk hnw.2 hfail⟩

theorem get_monitor_snd (cs : List Candidate) : (get_monitor cs).2 = (runSelect 0 cs).2 := by
  unfold get_monitor
  rcases hr : runSelect 0 cs with ⟨o, tr⟩
  cases o <;> simp

theorem get_monitor_fst_some (cs : List Candidate) (j : Nat)
    (h : (runSelect 0 cs).1 = some j) :
    (get_monitor cs).1 = SelectOutcome.selected j := by
  unfold get_monitor
  rcases hr : runSelect 0 cs with ⟨o, tr⟩
  rw [hr] at h
  simp at h
  subst h
  simp

theorem get_monitor_fst_none (cs : List Candidate)
    (h : (runSelect 0 cs).1 = none) :
    (get_monitor cs).1 = SelectOutcome.failed SelectError.NoMonitorAvailable := by
  unfold get_monitor
  rcases hr : runSelect 0 cs with ⟨o, tr⟩
  rw [hr] at h
  simp at h
  subst h
  simp

/-- Claim C1: for every non-empty registry in which at least one candidate's
construction and probe query both succeed, `get_monitor` returns the instance
produced by the first such candidate (position `j`) in registration order,
performs exactly one idle-time query against each successfully constructed
candidate before deciding, and never constructs any candidate after the
winner. -/
theorem get_monitor_returns_first_success (cs : List Candidate) (j : Nat) (c : Candidate)
    (hj : cs[j]? = some c) (hc : c.constructOk = true) (hp : c.probeOk = true)
    (hfirst : noWinBefore cs j = true) :
    (get_monitor cs).1 = SelectOutcome.selected j
    ∧ (∀ k, j < k → countE (Event.construct k) (get_monitor cs).2 = 0)
    ∧ (∀ k c', k ≤ j → cs[k]? = some c' → c'.constructOk = true →
        countE (Event.query k) (get_monitor cs).2 = 1) := by
  have hwin := firstWinIdx_eq_some_of cs j c hj hc hp hfirst
  have h1 : (runSelect 0 cs).1 = some j := by
    rw [runSelect_fst cs 0, hwin]
    simp
  refine ⟨get_monitor_fst_some cs j h1, ?_, ?_⟩
  · intro k hk
    rw [get_monitor_snd]
    have hcount := countE_construct_runSelect cs 0 k
    rw [Nat.zero_add] at hcount
    rw [hcount, if_neg]
    rintro ⟨-, hnw⟩
    rw [noWinBefore_false_after_win cs j c k hj hc hp hk] at hnw
    exact Bool.false_ne_true hnw
  · intro k c' hk hks hcs
    rw [get_monitor_snd]
    have hcount := countE_query_runSelect cs 0 k c' hks
    rw [Nat.zero_add] at hcount
    rw [hcount, if_pos]
    exact ⟨noWinBefore_mono cs j k hk hfirst, hcs⟩

/-- Witness for C1, on the spec's scenario registry
`[A (construction fails), B (constructs, probe fails), C (constructs, probe ok)]`:
the winner is position 2, position 3 is never constructed, and the winner is
queried exactly once. -/
theorem get_monitor_returns_first_success_witness :
    ([Candidate.mk false false, Candidate.mk true false, Candidate.mk true true][2]?
        = some (Candidate.mk true true))
    ∧ noWinBefore
        [Candidate.mk false false, Candidate.mk true false, Candidate.mk true true] 2 = true
    ∧ (get_monitor
        [Candidate.mk false false, Candidate.mk true false, Candidate.mk true true]).1
        = SelectOutcome.selected 2
    ∧ countE (Event.construct 3)
        (get_monitor
          [Candidate.mk false false, Candidate.mk true false, Candidate.mk true true]).2 = 0
    ∧ countE (Event.query 2)
        (get_monitor
          [Candidate.mk false false, Candidate.mk true false, Candidate.mk true true]).2
        = 1 := by
  refine ⟨by decide, by decide, ?_, ?_, ?_⟩
  · exact (get_monitor_returns_first_success
      [Candidate.mk false false, Candidate.mk true false, Candidate.mk true true] 2
      (Candidate.mk true true) (by decide) (by decide) (by decide) (by decide)).1
  · exact (get_monitor_returns_first_success
      [Candidate.mk false false, Candidate.mk true false, Candidate.mk true true] 2
      (Candidate.mk true true) (by decide) (by decide) (by decide) (by decide)).2.1
      3 (by decide)
  · exact (get_monitor_returns_first_success
      [Candidate.mk false false, Candidate.mk true false, Candidate.mk true true] 2
      (Candidate.mk true true) (by decide) (by decide) (by decide) (by decide)).2.2
      2 (Candidate.mk true true) (by decide) (by decide) (by decide)

/-- Claim C2: for every registry in which every candidate fails construction
or the probe query (including the empty registry), `get_monitor` fails with
the `NoMonitorAvailable` error kind, and only after having attempted every
candidate exactly once. -/
theorem get_monitor_exhausts_then_fails (cs : List Candidate)
    (h : (cs.all fun c => !(c.constructOk && c.probeOk)) = true) :
    (get_monitor cs).1 = SelectOutcome.failed SelectError.NoMonitorAvailable
    ∧ ∀ k, countE (Event.construct k) (get_monitor cs).2
        = if k < cs.length then 1 else 0 := by
  have hnone : (runSelect 0 cs).1 = none := by
    rw [runSelect_fst cs 0, firstWinIdx_eq_none_of cs h]
    rfl
  refine ⟨get_monitor_fst_none cs hnone, ?_⟩
  intro k
  rw [get_monitor_snd]
  have hcount := countE_construct_runSelect cs 0 k
  rw [Nat.zero_add] at hcount
  rw [hcount]
  by_cases hk : k < cs.length
  · rw [if_pos ⟨hk, noWinBefore_of_allFail cs h k⟩, if_pos hk]
  · rw [if_neg (fun hh => hk hh.1), if_neg hk]

/-- Witness for C2: a registry whose first candidate fails construction and
whose second constructs but fails the probe ends in `NoMonitorAvailable`,
with each of the two candidates constructed exactly once and no third
construction attempt. -/
theorem get_monitor_exhausts_then_fails_witness :
    (([Candidate.mk false false, Candidate.mk true false].all
        fun c => !(c.constructOk && c.probeOk)) = true)
    ∧ (get_monitor [Candidate.mk false false, Candidate.mk true false]).1
        = SelectOutcome.failed SelectError.NoMonitorAvailable
    ∧ countE (Event.construct 0)
        (get_monitor [Candidate.mk false false, Candidate.mk true false]).2 = 1
    ∧ countE (Event.construct 1)
        (get_monitor [Candidate.mk false false, Candidate.mk true false]).2 = 1
    ∧ countE (Event.construct 2)
        (get_monitor [Candidate.mk false false, Candidate.mk true false]).2 = 0 := by
  refine ⟨by decide, ?_, ?_, ?_, ?_⟩
  · exact (get_monitor_exhausts_then_fails
      [Candidate.mk false false, Candidate.mk true false] (by decide)).1
  · exact ((get_monitor_exhausts_then_fails
      [Candidate.mk false false, Candidate.mk true false] (by decide)).2 0).trans (by decide)
  · exact ((get_monitor_exhausts_then_fails
      [Candidate.mk false false, Candidate.mk true false] (by decide)).2 1).trans (by decide)
  · exact ((get_monitor_exhausts_then_fails
      [Candidate.mk false false, Candidate.mk true false] (by decide)).2 2).trans (by decide)

/-- Claim C3: during selection, a candidate whose construction throws is never
queried; and a candidate that constructs but fails the probe advances the
search to the next candidate (which gets its construction attempt) rather
than terminating or escalating the failure. -/
theorem get_monitor_skip_query_and_continue (cs : List Candidate) :
    (∀ k c, cs[k]? = some c → c.constructOk = false →
        countE (Event.query k) (get_monitor cs).2 = 0)
    ∧ (∀ k c, cs[k]? = some c → c.constructOk = true → c.probeOk = false →
        noWinBefore cs k = true → k + 1 < cs.length →
        countE (Event.construct (k + 1)) (get_monitor cs).2 = 1) := by
  constructor
  · intro k c hk hfail
    rw [get_monitor_snd]
    have hcount := countE_query_runSelect cs 0 k c hk
    rw [Nat.zero_add] at hcount
    rw [hcount, if_neg]
    rintro ⟨-, hcon⟩
    rw [hfail] at hcon
    exact Bool.false_ne_true hcon
  · intro k c hk hcon hprobe hnw hlen
    rw [get_monitor_snd]
    have hcount := countE_construct_runSelect cs 0 (k + 1)
    rw [Nat.zero_add] at hcount
    rw [hcount, if_pos]
    refine ⟨hlen, noWinBefore_extend cs k c hk hnw ?_⟩
    rw [hcon, hprobe]
    rfl

/-- Witness for C3, on the scenario registry: candidate 0 (construction
throws) is never queried, and the probe failure of candidate 1 advances the
search to candidate 2. -/
theorem get_monitor_skip_query_and_continue_witness :
    countE (Event.query 0)
      (get_monitor
        [Candidate.mk false false, Candidate.mk true false, Candidate.mk true true]).2 = 0
    ∧ countE (Event.construct 2)
      (get_monitor
        [Candidate.mk false false, Candidate.mk true false, Candidate.mk true true]).2
      = 1 := by
  constructor
  · exact (get_monitor_skip_query_and_continue
      [Candidate.mk false false, Candidate.mk true false, Candidate.mk true true]).1
      0 (Candidate.mk false false) (by decide) (by decide)
  · exact (get_monitor_skip_query_and_continue
      [Candidate.mk false false, Candidate.mk true false, Candidate.mk true true]).2
      1 (Candidate.mk true false) (by decide) (by decide) (by decide) (by decide) (by decide)

/-- Claim C4: `is_idle` returns true exactly when the value returned by
`get_idle_time` strictly exceeds the stored `idle_threshold`; at equality it
returns false. -/
theorem is_idle_iff_gt_threshold (t th : ℚ) :
    (is_idle t th = true ↔ t > th) ∧ is_idle th th = false := by
  constructor
  · simp [is_idle]
  · simp [is_idle]

theorem selectRes_no_leak (steps : List ProbeStep) :
    ∀ i, (∀ s ∈ steps, unreleased s.allocated s.released = []) →
      (selectRes i steps).2 = [] := by
  induction steps with
  | nil => intro i _; rfl
  | cons s rest ih =>
    intro i h
    simp only [selectRes]
    by_cases hw : (s.constructOk && s.probeOk) = true
    · simp [hw]
    · simp only [Bool.not_eq_true] at hw
      simp [hw, h s (List.mem_cons_self s rest),
        ih (i + 1) (fun t ht => h t (List.mem_cons_of_mem s ht))]

theorem gnomeStep_busError_unreleased (xdg : Option String) (name : String)
    (hg : gnomeCheck xdg = true) :
    unreleased (gnomeStep xdg true (BusReply.busError name)).allocated
      (gnomeStep xdg true (BusReply.busError name)).released = [] := by
  have hinit : gnome_init xdg true = GnomeInitResult.mk true true true true := by
    simp [gnome_init, hg]
  have hclosed : (gnome_get_idle_time (BusReply.busError name)).connClosed = true := by
    simp only [gnome_get_idle_time]
    split <;> rfl
  simp only [gnomeStep, hinit, hclosed, if_true]
  decide

/-- Counterexample to claim C5: a registry holding one `X11IdleMonitor`
candidate in an environment where libX11 is present, the display opens, but
libXss is absent.  Construction fails after the display connection was
opened (line 140 precedes the failing `_load_lib("Xss")` of line 143), the
selector's `except` clause only logs, and the class has no cleanup code, so
the discarded candidate's display connection stays allocated. -/
theorem selector_leak_counterexample :
    (selectRes 0 [x11Step true true false]).2 = ["display-connection"]
    ∧ ["display-connection"] ≠ ([] : List String) := by
  decide

/-- Claim C5 (amended): the selector itself releases nothing, so the
resources a discarded candidate leaves allocated are exactly those its own
code did not release: the leak is empty precisely when every discarded
candidate released everything it allocated, and in particular the session-bus
candidate discarded because its probe failed with a bus-error response (which
closes its connection at line 105) leaks nothing. -/
theorem selector_releases_only_via_candidate_code (steps : List ProbeStep)
    (xdg : Option String) (name : String)
    (hall : ∀ s ∈ steps, unreleased s.allocated s.released = [])
    (hg : gnomeCheck xdg = true) :
    (selectRes 0 steps).2 = []
    ∧ unreleased (gnomeStep xdg true (BusReply.busError name)).allocated
        (gnomeStep xdg true (BusReply.busError name)).released = [] :=
  ⟨selectRes_no_leak steps 0 hall, gnomeStep_busError_unreleased xdg name hg⟩

/-- Witness for the amended C5: a registry holding one session-bus candidate
whose probe fails with a bus-error response leaks nothing. -/
theorem selector_releases_only_via_candidate_code_witness :
    unreleased
        (gnomeStep (some "GNOME") true
          (BusReply.busError "org.freedesktop.DBus.Error.NoReply")).allocated
        (gnomeStep (some "GNOME") true
          (BusReply.busError "org.freedesktop.DBus.Error.NoReply")).released = []
    ∧ gnomeCheck (some "GNOME") = true
    ∧ (selectRes 0
        [gnomeStep (some "GNOME") true
          (BusReply.busError "org.freedesktop.DBus.Error.NoReply")]).2 = [] := by
  refine ⟨by decide, by decide, ?_⟩
  exact (selector_releases_only_via_candidate_code
    [gnomeStep (some "GNOME") true (BusReply.busError "org.freedesktop.DBus.Error.NoReply")]
    (some "GNOME") "org.freedesktop.DBus.Error.NoReply" (by decide) (by decide)).1

/-- Claim C6: when `get_idle_time` of the session-bus backend fails because
the remote service is unknown, the connection is closed (line 105 runs before
the `raise` of line 107) and the distinguished descriptive error is raised. -/
theorem gnome_query_service_unknown_closes_then_raises :
    (gnome_get_idle_time (BusReply.busError serviceUnknownName)).connClosed = true
    ∧ (gnome_get_idle_time (BusReply.busError serviceUnknownName)).result
        = QueryOutcome.err (QueryError.serviceNotAvailable
            "Gnome Mutter is not available, is gnome running?") := by
  constructor <;> simp [gnome_get_idle_time]

/-- Claim C9: every bus-error response during the session-bus backend's
`get_idle_time` closes the connection before the error propagates; on
"service unknown" the descriptive error is raised, and on any other bus-error
name the original bus error is re-raised unchanged. -/
theorem gnome_query_bus_error_closes_connection (name : String) :
    (gnome_get_idle_time (BusReply.busError name)).connClosed = true
    ∧ (name = serviceUnknownName →
        (gnome_get_idle_time (BusReply.busError name)).result
          = QueryOutcome.err (QueryError.serviceNotAvailable
              "Gnome Mutter is not available, is gnome running?"))
    ∧ (name ≠ serviceUnknownName →
        (gnome_get_idle_time (BusReply.busError name)).result
          = QueryOutcome.err (QueryError.busError name)) := by
  refine ⟨?_, ?_, ?_⟩
  · simp only [gnome_get_idle_time]
    split <;> rfl
  · intro h
    subst h
    simp [gnome_get_idle_time]
  · intro h
    simp [gnome_get_idle_time, h]

/-- Witness for C9: a bus error other than "service unknown" still closes the
connection and is re-raised unchanged. -/
theorem gnome_query_bus_error_closes_connection_witness :
    (gnome_get_idle_time
        (BusReply.busError "org.freedesktop.DBus.Error.NoReply")).connClosed = true
    ∧ (gnome_get_idle_time
        (BusReply.busError "org.freedesktop.DBus.Error.NoReply")).result
        = QueryOutcome.err (QueryError.busError "org.freedesktop.DBus.Error.NoReply") := by
  refine ⟨(gnome_query_bus_error_closes_connection "org.freedesktop.DBus.Error.NoReply").1, ?_⟩
  exact (gnome_query_bus_error_closes_connection
    "org.freedesktop.DBus.Error.NoReply").2.2 (by decide)

/-- Claim C7: construction of the session-bus backend verifies the desktop
identifier first and, when it is absent, fails before `connect_and_authenticate`
is even attempted; the connection and the method-call message exist only
after the check passes. -/
theorem gnome_init_env_checked_first (xdg : Option String) (busAvailable : Bool) :
    (gnomeCheck xdg = false →
        gnome_init xdg busAvailable = GnomeInitResult.mk false false false false)
    ∧ (gnomeCheck xdg = true → busAvailable = true →
        gnome_init xdg busAvailable = GnomeInitResult.mk true true true true) := by
  constructor
  · intro h
    simp [gnome_init, h]
  · intro h hb
    simp [gnome_init, h, hb]

/-- Witness for C7: without "GNOME" in the desktop identifier construction
fails with nothing attempted on the bus; with it, the connection is opened
and the message prepared. -/
theorem gnome_init_env_checked_first_witness :
    gnomeCheck (some "KDE") = false
    ∧ gnome_init (some "KDE") true = GnomeInitResult.mk false false false false
    ∧ gnomeCheck (some "ubuntu:GNOME") = true
    ∧ gnome_init (some "ubuntu:GNOME") true = GnomeInitResult.mk true true true true := by
  refine ⟨by decide, ?_, by decide, ?_⟩
  · exact (gnome_init_env_checked_first (some "KDE") true).1 (by decide)
  · exact (gnome_init_env_checked_first (some "ubuntu:GNOME") true).2 (by decide) rfl

/-- Counterexample to claim C8: the Windows backend computes
`(GetTickCount() - GetLastInputInfo()) / 1000` with ordinary integer
subtraction; when the last-input tick exceeds the current tick count (the
32-bit tick counter wraps roughly every 49.7 days) the result is negative. -/
theorem windows_idle_time_negative_counterexample :
    windows_get_idle_time 0 1000 < 0 ∧ windows_get_idle_time 0 1000 = -1 := by
  constructor <;> norm_num [windows_get_idle_time]

/-- Claim C8 (amended): every successful `get_idle_time` is non-negative for
the session-bus backend (`reply / 1000`) and the display-extension backend
(`idle counter / 1000`); the tick-counter backend's
`(tick count - last input tick) / 1000` is non-negative provided the last
input tick does not exceed the current tick count. -/
theorem get_idle_time_nonneg_amended (tickCount lastInputTick ms idleMs : Nat)
    (h : lastInputTick ≤ tickCount) :
    0 ≤ windows_get_idle_time tickCount lastInputTick
    ∧ 0 ≤ x11_get_idle_time idleMs
    ∧ (gnome_get_idle_time (BusReply.success ms)).result
        = QueryOutcome.ok ((ms : ℚ) / 1000)
    ∧ 0 ≤ ((ms : ℚ) / 1000) := by
  refine ⟨?_, ?_, rfl, ?_⟩
  · have hcast : (lastInputTick : ℚ) ≤ (tickCount : ℚ) := by exact_mod_cast h
    unfold windows_get_idle_time
    exact div_nonneg (sub_nonneg.mpr hcast) (by norm_num)
  · unfold x11_get_idle_time
    positivity
  · positivity

/-- Witness for the amended C8 at concrete tick and counter values. -/
theorem get_idle_time_nonneg_amended_witness :
    (3 : Nat) ≤ 5
    ∧ 0 ≤ windows_get_idle_time 5 3
    ∧ 0 ≤ x11_get_idle_time 7
    ∧ (gnome_get_idle_time (BusReply.success 2)).result
        = QueryOutcome.ok (((2 : Nat) : ℚ) / 1000) := by
  have h := get_idle_time_nonneg_amended 5 3 2 7 (by decide)
  exact ⟨by decide, h.1, h.2.1, h.2.2.1⟩

/-- Claim C10: after the module is imported, the registry
`IdleMonitor.subclasses` contains exactly the subclasses of `IdleMonitor`
(all of which are concrete), appended at class-definition time in definition
order, and never the abstract base class itself — so the selector, which
iterates only this registry, never constructs or probes the base class. -/
theorem subclass_registry_exact (win32Available : Bool) :
    subclasses win32Available
      = (moduleClassDefs win32Available).filter isSubclassOfIdleMonitor
    ∧ MonitorClass.idleMonitorBase ∉ subclasses win32Available := by
  cases win32Available <;> decide
